import Mathlib

/-!
Verification of the module-resolution core of
`ReactAndroid/src/main/java/com/facebook/react/turbomodule/core/jni/ReactCommon/TurboModuleManager.cpp`.

The file embeds, as pure Lean functions:

* the `turboModuleProvider` closure installed by `installJSIBindings`
  (TurboModuleManager.cpp lines 93-170): weak-reference guards, the
  `TurboModuleCache` fast path, and the three-tier provider chain
  (delegate C++ fast path, legacy CxxModule shim on the Java manager,
  Java TurboModule via the delegate), together with the
  `TurboModulePerfLogger` instrumentation calls and the JNI/delegate
  provider calls as an event trace;
* the `TurboModuleManager` constructor (lines 23-56): selection of the
  callback-retention strategy from the two construction flags.

Opaque C++ objects are modelled as follows: a `std::shared_ptr<TurboModule>`
is an `Option TurboModule` (`none` = null pointer); the module objects the
external providers hand back carry a `Nat` identity so that distinct
instances are distinguishable; the five weak references captured by the
closure are modelled by five liveness flags (`lock` / `lockLocal` succeeds
iff the flag is `true`); the JS/native `CallInvoker`s have no behaviour
observable by the resolver beyond being alive, so only their liveness flags
appear.
-/

/-- A `TurboModule` instance, tagged with the tier that produced it:
`delegateCxxModule v` is a module returned by
`delegate->cthis()->getTurboModule(name, jsCallInvoker)` (line 125);
`turboCxxModule m` is a `react::TurboCxxModule` adapter constructed around
the legacy CxxModule `m` obtained from `legacyCxxModule->cthis()->getModule()`
(lines 140-141); `delegateJavaModule v` is a module returned by
`delegate->cthis()->getTurboModule(name, params)` (line 163). -/
inductive TurboModule where
  | delegateCxxModule (v : Nat)
  | turboCxxModule (legacyModule : Nat)
  | delegateJavaModule (v : Nat)
deriving DecidableEq

/-- The `TurboModuleCache` (`std::unordered_map<std::string,
std::shared_ptr<TurboModule>>`): an association list from module name to
the stored (possibly null) shared pointer. -/
def TurboModuleCache : Type := List (String × Option TurboModule)

/-- `turboModuleCache->find(name)` (line 116): `none` when the name is
absent, `some v` when an entry with value `v` (a possibly-null pointer)
is present. -/
def cacheFind : TurboModuleCache → String → Option (Option TurboModule)
  | [], _ => none
  | (k, v) :: rest, name => if k = name then some v else cacheFind rest name

/-- `turboModuleCache->insert({name, m})` (lines 127, 142, 164):
`std::unordered_map::insert` is a no-op when the key is already present. -/
def cacheInsert (c : TurboModuleCache) (name : String) (m : Option TurboModule) :
    TurboModuleCache :=
  match cacheFind c name with
  | some _ => c
  | none => (name, m) :: c

/-- One observable event of a lookup: the five `TurboModulePerfLogger`
calls made by `turboModuleProvider`, the four outgoing provider/JNI calls,
and a cache insertion. -/
inductive TraceEvent where
  | moduleJSRequireBeginningStart (name : String)
  | moduleJSRequireBeginningCacheHit (name : String)
  | moduleJSRequireBeginningEnd (name : String)
  | moduleJSRequireEndingStart (name : String)
  | moduleJSRequireEndingEnd (name : String)
  | callDelegateGetTurboModule (name : String)
  | callGetLegacyCxxModule (name : String)
  | callGetJavaModule (name : String)
  | callDelegateGetTurboModuleJava (name : String)
  | cacheWrite (name : String)
deriving DecidableEq

/-- The aliveness of the five weakly captured dependencies and the
behaviour of the external providers reachable from the closure:
`delegateGetTurboModule` is `delegate->cthis()->getTurboModule(name,
jsCallInvoker)` (line 125); `getLegacyCxxModule` is the Java method
`getLegacyCxxModule` invoked on `javaPart` (lines 131-135), already
composed with `->cthis()->getModule()` so it yields the underlying legacy
CxxModule identity; `getJavaModule` is the Java method `getJavaModule` on
`javaPart` (lines 148-152); `delegateGetTurboModuleJava` is
`delegate->cthis()->getTurboModule(name, params)` (line 163), whose result
may be null. -/
structure ResolverEnv where
  cacheAlive : Bool
  jsCallInvokerAlive : Bool
  nativeCallInvokerAlive : Bool
  delegateAlive : Bool
  javaPartAlive : Bool
  delegateGetTurboModule : String → Option TurboModule
  getLegacyCxxModule : String → Option Nat
  getJavaModule : String → Option Nat
  delegateGetTurboModuleJava : String → Nat → Option TurboModule

/-- All five weak-reference upgrades at lines 101-105 succeed; the guard at
lines 107-110 returns null exactly when this is `false`. -/
def allAlive (env : ResolverEnv) : Bool :=
  env.cacheAlive && env.jsCallInvokerAlive && env.nativeCallInvokerAlive &&
    env.delegateAlive && env.javaPartAlive

/-- The provider chain walked on a cache miss (lines 125-169): delegate C++
fast path, then the legacy CxxModule shim on the Java manager wrapped in a
`TurboCxxModule`, then the Java module via the delegate.  Returns the
shared pointer handed back to JS, the updated cache, and the event trace of
this portion of the lookup. -/
def resolveModule (env : ResolverEnv) (cache : TurboModuleCache) (name : String) :
    Option TurboModule × TurboModuleCache × List TraceEvent :=
  match env.delegateGetTurboModule name with
  | some cxxModule =>
      -- lines 125-129: insert and return, no ending perf events
      (some cxxModule, cacheInsert cache name (some cxxModule),
        [.callDelegateGetTurboModule name, .cacheWrite name])
  | none =>
      match env.getLegacyCxxModule name with
      | some legacyModule =>
          -- lines 131-146
          (some (TurboModule.turboCxxModule legacyModule),
            cacheInsert cache name (some (TurboModule.turboCxxModule legacyModule)),
            [.callDelegateGetTurboModule name, .callGetLegacyCxxModule name,
             .moduleJSRequireEndingStart name, .cacheWrite name,
             .moduleJSRequireEndingEnd name])
      | none =>
          match env.getJavaModule name with
          | some moduleInstance =>
              -- lines 148-167: the delegate result is inserted and returned
              -- without a null check
              (env.delegateGetTurboModuleJava name moduleInstance,
                cacheInsert cache name (env.delegateGetTurboModuleJava name moduleInstance),
                [.callDelegateGetTurboModule name, .callGetLegacyCxxModule name,
                 .callGetJavaModule name, .moduleJSRequireEndingStart name,
                 .callDelegateGetTurboModuleJava name, .cacheWrite name,
                 .moduleJSRequireEndingEnd name])
          | none =>
              -- line 169
              (none, cache,
                [.callDelegateGetTurboModule name, .callGetLegacyCxxModule name,
                 .callGetJavaModule name])

/-- One invocation of the `turboModuleProvider` closure (lines 100-169):
upgrade the five weak references and bail out with null if any upgrade
fails (lines 101-110); otherwise consult the cache (lines 114-123) and on a
miss walk the provider chain. -/
def turboModuleProvider (env : ResolverEnv) (cache : TurboModuleCache) (name : String) :
    Option TurboModule × TurboModuleCache × List TraceEvent :=
  if allAlive env then
    match cacheFind cache name with
    | some cached =>
        -- lines 116-121: cache hit
        (cached, cache,
          [.moduleJSRequireBeginningStart name, .moduleJSRequireBeginningCacheHit name,
           .moduleJSRequireBeginningEnd name])
    | none =>
        let r := resolveModule env cache name
        (r.1, r.2.1,
          .moduleJSRequireBeginningStart name :: .moduleJSRequireBeginningEnd name ::
            r.2.2)
  else (none, cache, [])

/-- A sequence of invocations of the closure, threading the cache and
concatenating the event traces.  Each call carries its own `ResolverEnv`,
since the liveness of the weakly captured dependencies can change between
invocations. -/
def runSeq : List (ResolverEnv × String) → TurboModuleCache →
    TurboModuleCache × List TraceEvent
  | [], cache => (cache, [])
  | (env, name) :: rest, cache =>
      let step := turboModuleProvider env cache name
      let tail := runSeq rest step.2.1
      (tail.1, step.2.2 ++ tail.2)

/-- Events that consult a provider (any of the four outgoing calls). -/
def TraceEvent.isProviderCall : TraceEvent → Bool
  | .callDelegateGetTurboModule _ => true
  | .callGetLegacyCxxModule _ => true
  | .callGetJavaModule _ => true
  | .callDelegateGetTurboModuleJava _ => true
  | _ => false

/-- The provider-consulting events of a trace. -/
def providerCalls (events : List TraceEvent) : List TraceEvent :=
  events.filter TraceEvent.isProviderCall

/-- How many times an entry for `name` was written into the cache. -/
def insertCount (name : String) : List TraceEvent → Nat
  | [] => 0
  | ev :: rest =>
      (if ev = TraceEvent.cacheWrite name then 1 else 0) + insertCount name rest

/-- A retained callback, as produced by the `retainJSCallback_` lambda
installed by the constructor: `weakGlobal cb` models
`CallbackWrapper::createWeak(std::move(callback), runtime, jsInvoker)`
(lines 42-43, process-global scope); `weakInCollection coll cb` models
`CallbackWrapper::createWeak(longLivedObjectCollection, std::move(callback),
runtime, jsInvoker)` (lines 52-53, registered in the collection `coll`). -/
inductive CallbackWrapperRef where
  | weakGlobal (callback : Nat)
  | weakInCollection (collection : Nat) (callback : Nat)
deriving DecidableEq

/-- The retention-relevant state a `TurboModuleManager` holds after
construction: the `longLivedObjectCollection_` member (`none` = null) and
the `retainJSCallback_` member (`none` = the default-constructed, empty
`std::function`, i.e. no factory installed). -/
structure TurboModuleManagerState where
  longLivedObjectCollection : Option Nat
  retainJSCallback : Option (Nat → CallbackWrapperRef)

/-- The `TurboModuleManager` constructor body (lines 37-55).
`freshCollection` is the identity of the `LongLivedObjectCollection` the
constructor would allocate with `std::make_shared` at line 46. -/
def mkTurboModuleManager
    (useGlobalCallbackCleanupScopeUsingRetainJSCallback : Bool)
    (useTurboModuleManagerCallbackCleanupScope : Bool)
    (freshCollection : Nat) : TurboModuleManagerState :=
  if useGlobalCallbackCleanupScopeUsingRetainJSCallback then
    { longLivedObjectCollection := none
      retainJSCallback := some fun cb => .weakGlobal cb }
  else if useTurboModuleManagerCallbackCleanupScope then
    { longLivedObjectCollection := some freshCollection
      retainJSCallback := some fun cb => .weakInCollection freshCollection cb }
  else
    { longLivedObjectCollection := none, retainJSCallback := none }

/-- The empty cache a freshly constructed manager starts from (line 36). -/
def cache0 : TurboModuleCache := []

/-- A baseline environment: all five weak references alive, every provider
empty.  Concrete environments below override individual providers. -/
def envAllAlive : ResolverEnv where
  cacheAlive := true
  jsCallInvokerAlive := true
  nativeCallInvokerAlive := true
  delegateAlive := true
  javaPartAlive := true
  delegateGetTurboModule := fun _ => none
  getLegacyCxxModule := fun _ => none
  getJavaModule := fun _ => none
  delegateGetTurboModuleJava := fun _ _ => none

/-- Fast path serves module 7 for name Foo. -/
def envFastFoo : ResolverEnv :=
  { envAllAlive with
    delegateGetTurboModule := fun n =>
      if n = "Foo" then some (TurboModule.delegateCxxModule 7) else none }

/-- Both the fast path and the legacy shim could answer Foo. -/
def envFastAndLegacyFoo : ResolverEnv :=
  { envAllAlive with
    delegateGetTurboModule := fun n =>
      if n = "Foo" then some (TurboModule.delegateCxxModule 2) else none
    getLegacyCxxModule := fun n => if n = "Foo" then some 9 else none }

/-- The delegate weak reference is dead; the fast path would otherwise
answer Foo. -/
def envDeadDelegate : ResolverEnv :=
  { envAllAlive with
    delegateAlive := false
    delegateGetTurboModule := fun n =>
      if n = "Foo" then some (TurboModule.delegateCxxModule 7) else none }

/-- Only the legacy shim on the Java manager serves Foo (as legacy
CxxModule 5); both delegate entry points are empty everywhere. -/
def envLegacyOnly : ResolverEnv :=
  { envAllAlive with
    getLegacyCxxModule := fun n => if n = "Foo" then some 5 else none }

/-- Only the fast path serves Foo (as module 1). -/
def envFastOnly : ResolverEnv :=
  { envAllAlive with
    delegateGetTurboModule := fun n =>
      if n = "Foo" then some (TurboModule.delegateCxxModule 1) else none }

/-- The Java manager has a Java object for Foo but the delegate produces a
null module from it. -/
def envJavaNullModule : ResolverEnv :=
  { envAllAlive with getJavaModule := fun n => if n = "Foo" then some 4 else none }

/-- A cache already holding an entry for Foo. -/
def cacheWithFoo : TurboModuleCache := [("Foo", some (TurboModule.delegateCxxModule 3))]

/-! ### Cache lemmas -/

theorem insertCount_append (name : String) (l1 l2 : List TraceEvent) :
    insertCount name (l1 ++ l2) = insertCount name l1 + insertCount name l2 := by
  induction l1 with
  | nil => simp [insertCount]
  | cons ev rest ih => simp [insertCount, ih]; omega

theorem cacheFind_insert_self (c : TurboModuleCache) (n : String) (v : Option TurboModule)
    (h : cacheFind c n = none) : cacheFind (cacheInsert c n v) n = some v := by
  unfold cacheInsert
  rw [h]
  simp [cacheFind]

theorem cacheInsert_of_present (c : TurboModuleCache) (n : String)
    (v w : Option TurboModule) (h : cacheFind c n = some v) :
    cacheInsert c n w = c := by
  unfold cacheInsert
  rw [h]

theorem cacheFind_insert_preserve (c : TurboModuleCache) (n n' : String)
    (v : Option TurboModule) (v' : Option TurboModule) (h : cacheFind c n = some v) :
    cacheFind (cacheInsert c n' v') n = some v := by
  unfold cacheInsert
  cases hfind : cacheFind c n' with
  | some w => exact h
  | none =>
      simp only [cacheFind]
      by_cases he : n' = n
      · subst he; rw [h] at hfind; cases hfind
      · simp [he, h]

theorem cacheFind_insert_other (c : TurboModuleCache) (n n' : String)
    (v' : Option TurboModule) (h : n' ≠ n) :
    cacheFind (cacheInsert c n' v') n = cacheFind c n := by
  unfold cacheInsert
  cases hfind : cacheFind c n' with
  | some w => rfl
  | none => simp [cacheFind, h]

/-! ### Per-invocation lemmas about the resolution chain -/

theorem provider_guard_dead (env : ResolverEnv) (c : TurboModuleCache) (name : String)
    (h : allAlive env = false) : turboModuleProvider env c name = (none, c, []) := by
  unfold turboModuleProvider
  rw [h]
  simp

theorem provider_cache_hit (env : ResolverEnv) (c : TurboModuleCache) (name : String)
    (v : Option TurboModule) (halive : allAlive env = true)
    (h : cacheFind c name = some v) :
    turboModuleProvider env c name = (v, c,
      [.moduleJSRequireBeginningStart name, .moduleJSRequireBeginningCacheHit name,
       .moduleJSRequireBeginningEnd name]) := by
  unfold turboModuleProvider
  rw [halive, h]
  simp

theorem resolveModule_success_cached (env : ResolverEnv) (c : TurboModuleCache)
    (name : String) (m : TurboModule) (hmiss : cacheFind c name = none)
    (h : (resolveModule env c name).1 = some m) :
    cacheFind (resolveModule env c name).2.1 name = some (some m) := by
  unfold resolveModule at h ⊢
  split at h <;> rename_i heq1
  · simp only at h
    cases h
    exact cacheFind_insert_self c name _ hmiss
  · split at h <;> rename_i heq2
    · simp only at h
      cases h
      exact cacheFind_insert_self c name _ hmiss
    · split at h <;> rename_i heq3
      · simp only [heq1, heq2, heq3] at h ⊢
        rw [h]
        exact cacheFind_insert_self c name _ hmiss
      · simp only [heq1, heq2, heq3] at h ⊢
        cases h

theorem provider_miss (env : ResolverEnv) (c : TurboModuleCache) (name : String)
    (halive : allAlive env = true) (hmiss : cacheFind c name = none) :
    turboModuleProvider env c name =
      ((resolveModule env c name).1, (resolveModule env c name).2.1,
        .moduleJSRequireBeginningStart name :: .moduleJSRequireBeginningEnd name ::
          (resolveModule env c name).2.2) := by
  unfold turboModuleProvider
  rw [halive, hmiss]
  simp

theorem provider_success_cached (env : ResolverEnv) (c : TurboModuleCache)
    (name : String) (m : TurboModule)
    (h : (turboModuleProvider env c name).1 = some m) :
    cacheFind (turboModuleProvider env c name).2.1 name = some (some m) := by
  by_cases halive : allAlive env = true
  · cases hfind : cacheFind c name with
    | some v =>
        rw [provider_cache_hit env c name v halive hfind] at h ⊢
        simp only at h ⊢
        rw [← h]
        exact hfind
    | none =>
        rw [provider_miss env c name halive hfind] at h ⊢
        simp only at h ⊢
        exact resolveModule_success_cached env c name m hfind h
  · rw [Bool.not_eq_true] at halive
    rw [provider_guard_dead env c name halive] at h
    cases h

theorem provider_step_present (env : ResolverEnv) (c : TurboModuleCache) (N : String)
    (v : Option TurboModule) (h : cacheFind c N = some v) :
    cacheFind (turboModuleProvider env c N).2.1 N = some v ∧
    insertCount N (turboModuleProvider env c N).2.2 = 0 := by
  by_cases halive : allAlive env = true
  · rw [provider_cache_hit env c N v halive h]
    exact ⟨h, by simp [insertCount]⟩
  · rw [Bool.not_eq_true] at halive
    rw [provider_guard_dead env c N halive]
    exact ⟨h, rfl⟩

theorem provider_step_other (env : ResolverEnv) (c : TurboModuleCache)
    (name N : String) (h : name ≠ N) :
    cacheFind (turboModuleProvider env c name).2.1 N = cacheFind c N ∧
    insertCount N (turboModuleProvider env c name).2.2 = 0 := by
  by_cases halive : allAlive env = true
  · cases hfind : cacheFind c name with
    | some v =>
        rw [provider_cache_hit env c name v halive hfind]
        exact ⟨rfl, by simp [insertCount]⟩
    | none =>
        rw [provider_miss env c name halive hfind]
        simp only
        unfold resolveModule
        split
        · exact ⟨cacheFind_insert_other c N name _ h, by simp [insertCount, h]⟩
        · split
          · exact ⟨cacheFind_insert_other c N name _ h, by simp [insertCount, h]⟩
          · split
            · exact ⟨cacheFind_insert_other c N name _ h, by simp [insertCount, h]⟩
            · exact ⟨rfl, by simp [insertCount, h]⟩
  · rw [Bool.not_eq_true] at halive
    rw [provider_guard_dead env c name halive]
    exact ⟨rfl, rfl⟩

theorem provider_step_cases (env : ResolverEnv) (c : TurboModuleCache) (N : String)
    (h : cacheFind c N = none) :
    (insertCount N (turboModuleProvider env c N).2.2 = 0 ∧
      (turboModuleProvider env c N).2.1 = c) ∨
    (insertCount N (turboModuleProvider env c N).2.2 = 1 ∧
      (cacheFind (turboModuleProvider env c N).2.1 N).isSome = true) := by
  by_cases halive : allAlive env = true
  · rw [provider_miss env c N halive h]
    simp only
    unfold resolveModule
    split
    · refine Or.inr ⟨by simp [insertCount], ?_⟩
      rw [cacheFind_insert_self c N _ h]
      rfl
    · split
      · refine Or.inr ⟨by simp [insertCount], ?_⟩
        rw [cacheFind_insert_self c N _ h]
        rfl
      · split
        · refine Or.inr ⟨by simp [insertCount], ?_⟩
          rw [cacheFind_insert_self c N _ h]
          rfl
        · exact Or.inl ⟨by simp [insertCount], rfl⟩
  · rw [Bool.not_eq_true] at halive
    rw [provider_guard_dead env c N halive]
    exact Or.inl ⟨rfl, rfl⟩

/-! ### Sequence-level invariants -/

theorem runSeq_preserve (calls : List (ResolverEnv × String)) (c : TurboModuleCache)
    (N : String) (v : Option TurboModule) (h : cacheFind c N = some v) :
    cacheFind (runSeq calls c).1 N = some v := by
  induction calls generalizing c with
  | nil => exact h
  | cons call rest ih =>
      obtain ⟨env, name⟩ := call
      simp only [runSeq]
      by_cases hn : name = N
      · subst hn
        exact ih _ (provider_step_present env c name v h).1
      · have h2 := (provider_step_other env c name N hn).1
        rw [h] at h2
        exact ih _ h2

theorem runSeq_insertCount_present (calls : List (ResolverEnv × String))
    (c : TurboModuleCache) (N : String) (v : Option TurboModule)
    (h : cacheFind c N = some v) :
    insertCount N (runSeq calls c).2 = 0 := by
  induction calls generalizing c with
  | nil => rfl
  | cons call rest ih =>
      obtain ⟨env, name⟩ := call
      simp only [runSeq]
      rw [insertCount_append]
      by_cases hn : name = N
      · subst hn
        obtain ⟨h1, h2⟩ := provider_step_present env c name v h
        rw [h2, ih _ h1]
      · obtain ⟨h1, h2⟩ := provider_step_other env c name N hn
        rw [h] at h1
        rw [h2, ih _ h1]

theorem runSeq_insertCount_le_one (calls : List (ResolverEnv × String))
    (c : TurboModuleCache) (N : String) :
    insertCount N (runSeq calls c).2 ≤ 1 := by
  induction calls generalizing c with
  | nil => simp [runSeq, insertCount]
  | cons call rest ih =>
      obtain ⟨env, name⟩ := call
      simp only [runSeq]
      rw [insertCount_append]
      by_cases hn : name = N
      · subst hn
        cases hfind : cacheFind c name with
        | some v =>
            obtain ⟨h1, h2⟩ := provider_step_present env c name v hfind
            rw [h2, runSeq_insertCount_present rest _ name v h1]
            omega
        | none =>
            rcases provider_step_cases env c name hfind with ⟨h1, h2⟩ | ⟨h1, h2⟩
            · rw [h1]
              simpa using ih (turboModuleProvider env c name).2.1
            · rw [h1]
              obtain ⟨w, hw⟩ := Option.isSome_iff_exists.mp h2
              rw [runSeq_insertCount_present rest _ name w hw]
      · rw [(provider_step_other env c name N hn).2]
        simpa using ih (turboModuleProvider env c name).2.1

/-! ### Branch equations for the provider chain -/

theorem resolveModule_fast (env : ResolverEnv) (c : TurboModuleCache) (name : String)
    (m : TurboModule) (hfast : env.delegateGetTurboModule name = some m) :
    resolveModule env c name = (some m, cacheInsert c name (some m),
      [.callDelegateGetTurboModule name, .cacheWrite name]) := by
  unfold resolveModule
  rw [hfast]

theorem resolveModule_legacy (env : ResolverEnv) (c : TurboModuleCache) (name : String)
    (l : Nat) (hfast : env.delegateGetTurboModule name = none)
    (hleg : env.getLegacyCxxModule name = some l) :
    resolveModule env c name = (some (TurboModule.turboCxxModule l),
      cacheInsert c name (some (TurboModule.turboCxxModule l)),
      [.callDelegateGetTurboModule name, .callGetLegacyCxxModule name,
       .moduleJSRequireEndingStart name, .cacheWrite name,
       .moduleJSRequireEndingEnd name]) := by
  unfold resolveModule
  rw [hfast, hleg]

theorem resolveModule_java (env : ResolverEnv) (c : TurboModuleCache) (name : String)
    (inst : Nat) (hfast : env.delegateGetTurboModule name = none)
    (hleg : env.getLegacyCxxModule name = none)
    (hjava : env.getJavaModule name = some inst) :
    resolveModule env c name = (env.delegateGetTurboModuleJava name inst,
      cacheInsert c name (env.delegateGetTurboModuleJava name inst),
      [.callDelegateGetTurboModule name, .callGetLegacyCxxModule name,
       .callGetJavaModule name, .moduleJSRequireEndingStart name,
       .callDelegateGetTurboModuleJava name, .cacheWrite name,
       .moduleJSRequireEndingEnd name]) := by
  unfold resolveModule
  rw [hfast, hleg, hjava]

theorem resolveModule_none (env : ResolverEnv) (c : TurboModuleCache) (name : String)
    (hfast : env.delegateGetTurboModule name = none)
    (hleg : env.getLegacyCxxModule name = none)
    (hjava : env.getJavaModule name = none) :
    resolveModule env c name = (none, c,
      [.callDelegateGetTurboModule name, .callGetLegacyCxxModule name,
       .callGetJavaModule name]) := by
  unfold resolveModule
  rw [hfast, hleg, hjava]

/-! ### Claim theorems -/

/-- Claim C2: on a cache miss the native fast path
(`delegate->getTurboModule(name, jsCallInvoker)`) is queried first, and
when it returns a non-empty instance that instance is inserted into the
cache and returned; the legacy-shim and managed-runtime providers are never
consulted for that lookup (the trace is exactly the begin events, the one
fast-path call and the cache write). -/
theorem fast_path_priority (env : ResolverEnv) (c : TurboModuleCache) (name : String)
    (m : TurboModule) (halive : allAlive env = true) (hmiss : cacheFind c name = none)
    (hfast : env.delegateGetTurboModule name = some m) :
    turboModuleProvider env c name = (some m, cacheInsert c name (some m),
      [.moduleJSRequireBeginningStart name, .moduleJSRequireBeginningEnd name,
       .callDelegateGetTurboModule name, .cacheWrite name]) ∧
    cacheFind (turboModuleProvider env c name).2.1 name = some (some m) ∧
    providerCalls (turboModuleProvider env c name).2.2 =
      [.callDelegateGetTurboModule name] := by
  have he := provider_miss env c name halive hmiss
  rw [resolveModule_fast env c name m hfast] at he
  simp only at he
  refine ⟨he, ?_, ?_⟩
  · rw [he]
    exact cacheFind_insert_self c name _ hmiss
  · rw [he]
    simp [providerCalls, List.filter, TraceEvent.isProviderCall]

/-- Witness for C2: a lookup of Foo against an environment where both the
fast path (module 2) and the legacy shim (legacy module 9) could answer. -/
theorem fast_path_priority_witness :
    (allAlive envFastAndLegacyFoo = true ∧ cacheFind cache0 "Foo" = none ∧
      envFastAndLegacyFoo.delegateGetTurboModule "Foo" =
        some (TurboModule.delegateCxxModule 2)) ∧
    (turboModuleProvider envFastAndLegacyFoo cache0 "Foo" =
      (some (TurboModule.delegateCxxModule 2),
        cacheInsert cache0 "Foo" (some (TurboModule.delegateCxxModule 2)),
        [.moduleJSRequireBeginningStart "Foo", .moduleJSRequireBeginningEnd "Foo",
         .callDelegateGetTurboModule "Foo", .cacheWrite "Foo"]) ∧
     cacheFind (turboModuleProvider envFastAndLegacyFoo cache0 "Foo").2.1 "Foo" =
       some (some (TurboModule.delegateCxxModule 2)) ∧
     providerCalls (turboModuleProvider envFastAndLegacyFoo cache0 "Foo").2.2 =
       [.callDelegateGetTurboModule "Foo"]) :=
  ⟨⟨by decide, by decide, by decide⟩,
    fast_path_priority envFastAndLegacyFoo cache0 "Foo"
      (TurboModule.delegateCxxModule 2) (by decide) (by decide) (by decide)⟩

/-- Claim C3: if upgrading any one of the five captured weak references
fails, the lookup returns null, performs no provider call and no
instrumentation, and leaves the cache untouched. -/
theorem lifetime_guard_fail_safe (env : ResolverEnv) (c : TurboModuleCache)
    (name : String)
    (h : env.cacheAlive = false ∨ env.jsCallInvokerAlive = false ∨
      env.nativeCallInvokerAlive = false ∨ env.delegateAlive = false ∨
      env.javaPartAlive = false) :
    turboModuleProvider env c name = (none, c, []) := by
  apply provider_guard_dead
  unfold allAlive
  rcases h with h | h | h | h | h <;> simp [h]

/-- Witness for C3: the delegate is destroyed while everything else is
alive; the lookup yields null with an untouched cache and an empty trace,
even though the fast path could have answered Foo. -/
theorem lifetime_guard_fail_safe_witness :
    envDeadDelegate.delegateAlive = false ∧
    turboModuleProvider envDeadDelegate cache0 "Foo" = (none, cache0, []) :=
  ⟨by decide,
    lifetime_guard_fail_safe envDeadDelegate cache0 "Foo"
      (Or.inr (Or.inr (Or.inr (Or.inl (by decide)))))⟩

/-- Claim C4: when all three providers come up empty for a name, the lookup
returns null and writes nothing, and every subsequent lookup for that name
re-walks the full provider chain (all three provider calls appear in each
invocation's trace) and again returns null.  Since the lookup leaves the
cache exactly as it was, a `k`-fold repetition produces `k` copies of the
full-chain trace and ends with the original cache. -/
theorem idempotent_miss (env : ResolverEnv) (c : TurboModuleCache) (name : String)
    (k : Nat) (halive : allAlive env = true) (hmiss : cacheFind c name = none)
    (hfast : env.delegateGetTurboModule name = none)
    (hleg : env.getLegacyCxxModule name = none)
    (hjava : env.getJavaModule name = none) :
    turboModuleProvider env c name = (none, c,
      [.moduleJSRequireBeginningStart name, .moduleJSRequireBeginningEnd name,
       .callDelegateGetTurboModule name, .callGetLegacyCxxModule name,
       .callGetJavaModule name]) ∧
    runSeq (List.replicate k (env, name)) c = (c,
      (List.replicate k
        ([.moduleJSRequireBeginningStart name, .moduleJSRequireBeginningEnd name,
          .callDelegateGetTurboModule name, .callGetLegacyCxxModule name,
          .callGetJavaModule name] : List TraceEvent)).flatten) := by
  have hstep : turboModuleProvider env c name = (none, c,
      [.moduleJSRequireBeginningStart name, .moduleJSRequireBeginningEnd name,
       .callDelegateGetTurboModule name, .callGetLegacyCxxModule name,
       .callGetJavaModule name]) := by
    have he := provider_miss env c name halive hmiss
    rw [resolveModule_none env c name hfast hleg hjava] at he
    simpa using he
  refine ⟨hstep, ?_⟩
  induction k with
  | zero => simp [runSeq]
  | succ n ih =>
      rw [List.replicate_succ, List.replicate_succ]
      simp only [runSeq, hstep]
      rw [ih, List.flatten_cons]

/-- Witness for C4: two consecutive failed lookups of Foo against an
environment with no providers; each walks the full chain and the cache
stays empty. -/
theorem idempotent_miss_witness :
    (allAlive envAllAlive = true ∧ cacheFind cache0 "Foo" = none ∧
      envAllAlive.delegateGetTurboModule "Foo" = none ∧
      envAllAlive.getLegacyCxxModule "Foo" = none ∧
      envAllAlive.getJavaModule "Foo" = none) ∧
    (turboModuleProvider envAllAlive cache0 "Foo" = (none, cache0,
      [.moduleJSRequireBeginningStart "Foo", .moduleJSRequireBeginningEnd "Foo",
       .callDelegateGetTurboModule "Foo", .callGetLegacyCxxModule "Foo",
       .callGetJavaModule "Foo"]) ∧
     runSeq (List.replicate 2 (envAllAlive, "Foo")) cache0 = (cache0,
      (List.replicate 2
        ([.moduleJSRequireBeginningStart "Foo", .moduleJSRequireBeginningEnd "Foo",
          .callDelegateGetTurboModule "Foo", .callGetLegacyCxxModule "Foo",
          .callGetJavaModule "Foo"] : List TraceEvent)).flatten)) :=
  ⟨⟨by decide, by decide, by decide, by decide, by decide⟩,
    idempotent_miss envAllAlive cache0 "Foo" 2 (by decide) (by decide) (by decide)
      (by decide) (by decide)⟩

/-- Counterexample to claim C6 as stated: the claim says the legacy-shim
tier is queried "via the same owning delegate that served the first tier".
In the code the first tier is served by `delegate_`
(`delegate->cthis()->getTurboModule`, line 125) while the legacy shim is
the Java method `getLegacyCxxModule` invoked on `javaPart_`, the owning
Java manager (lines 131-135).  In `envLegacyOnly` both delegate entry
points are empty at the looked-up name, yet the lookup succeeds with the
wrapped legacy module 5 supplied by the Java manager — so the delegate
cannot be the object that served the legacy tier. -/
theorem legacy_tier_delegate_counterexample :
    envLegacyOnly.delegateGetTurboModule "Foo" = none ∧
    envLegacyOnly.delegateGetTurboModuleJava "Foo" 5 = none ∧
    envLegacyOnly.getLegacyCxxModule "Foo" = some 5 ∧
    (turboModuleProvider envLegacyOnly cache0 "Foo").1 =
      some (TurboModule.turboCxxModule 5) := by decide

/-- Claim C6 (amended): when the native fast path returns empty, the
legacy-shim tier is queried via the owning Java manager object
(`getLegacyCxxModule` on `javaPart`), not via the delegate; on success the
legacy object is wrapped in a `TurboCxxModule` adapter, inserted into the
cache, and returned. -/
theorem legacy_tier_routing (env : ResolverEnv) (c : TurboModuleCache) (name : String)
    (l : Nat) (halive : allAlive env = true) (hmiss : cacheFind c name = none)
    (hfast : env.delegateGetTurboModule name = none)
    (hleg : env.getLegacyCxxModule name = some l) :
    turboModuleProvider env c name = (some (TurboModule.turboCxxModule l),
      cacheInsert c name (some (TurboModule.turboCxxModule l)),
      [.moduleJSRequireBeginningStart name, .moduleJSRequireBeginningEnd name,
       .callDelegateGetTurboModule name, .callGetLegacyCxxModule name,
       .moduleJSRequireEndingStart name, .cacheWrite name,
       .moduleJSRequireEndingEnd name]) ∧
    cacheFind (turboModuleProvider env c name).2.1 name =
      some (some (TurboModule.turboCxxModule l)) := by
  have he := provider_miss env c name halive hmiss
  rw [resolveModule_legacy env c name l hfast hleg] at he
  simp only at he
  refine ⟨he, ?_⟩
  rw [he]
  exact cacheFind_insert_self c name _ hmiss

/-- Witness for the amended C6: Foo resolves through the Java manager's
legacy shim to the `TurboCxxModule` wrapping legacy module 5. -/
theorem legacy_tier_routing_witness :
    (allAlive envLegacyOnly = true ∧ cacheFind cache0 "Foo" = none ∧
      envLegacyOnly.delegateGetTurboModule "Foo" = none ∧
      envLegacyOnly.getLegacyCxxModule "Foo" = some 5) ∧
    (turboModuleProvider envLegacyOnly cache0 "Foo" =
      (some (TurboModule.turboCxxModule 5),
        cacheInsert cache0 "Foo" (some (TurboModule.turboCxxModule 5)),
        [.moduleJSRequireBeginningStart "Foo", .moduleJSRequireBeginningEnd "Foo",
         .callDelegateGetTurboModule "Foo", .callGetLegacyCxxModule "Foo",
         .moduleJSRequireEndingStart "Foo", .cacheWrite "Foo",
         .moduleJSRequireEndingEnd "Foo"]) ∧
     cacheFind (turboModuleProvider envLegacyOnly cache0 "Foo").2.1 "Foo" =
       some (some (TurboModule.turboCxxModule 5))) :=
  ⟨⟨by decide, by decide, by decide, by decide⟩,
    legacy_tier_routing envLegacyOnly cache0 "Foo" 5 (by decide) (by decide)
      (by decide) (by decide)⟩

/-- Counterexample to claim C7 as stated: the claim says a lookup satisfied
by the native fast path records a resolution-end instrumentation event
before returning.  In the code the fast-path success branch (lines 125-129)
inserts and returns without calling `moduleJSRequireEndingStart` or
`moduleJSRequireEndingEnd`: here Foo is resolved by the fast path and its
trace contains neither ending event. -/
theorem fast_path_end_event_counterexample :
    (turboModuleProvider envFastOnly cache0 "Foo").1 =
      some (TurboModule.delegateCxxModule 1) ∧
    cacheFind (turboModuleProvider envFastOnly cache0 "Foo").2.1 "Foo" =
      some (some (TurboModule.delegateCxxModule 1)) ∧
    TraceEvent.moduleJSRequireEndingStart "Foo" ∉
      (turboModuleProvider envFastOnly cache0 "Foo").2.2 ∧
    TraceEvent.moduleJSRequireEndingEnd "Foo" ∉
      (turboModuleProvider envFastOnly cache0 "Foo").2.2 := by decide

/-- Claim C7 (amended): a lookup that misses the cache and is satisfied by
the native fast path records only the two begin events, the fast-path
provider call and the cache write — in particular no resolution-end
(`moduleJSRequireEnding*`) event is recorded on this path; the
resolution-end events are recorded only on the legacy-shim and
managed-runtime success paths. -/
theorem fast_path_no_ending_event (env : ResolverEnv) (c : TurboModuleCache)
    (name : String) (m : TurboModule) (halive : allAlive env = true)
    (hmiss : cacheFind c name = none)
    (hfast : env.delegateGetTurboModule name = some m) :
    (turboModuleProvider env c name).1 = some m ∧
    (turboModuleProvider env c name).2.2 =
      [.moduleJSRequireBeginningStart name, .moduleJSRequireBeginningEnd name,
       .callDelegateGetTurboModule name, .cacheWrite name] ∧
    TraceEvent.moduleJSRequireEndingStart name ∉ (turboModuleProvider env c name).2.2 ∧
    TraceEvent.moduleJSRequireEndingEnd name ∉ (turboModuleProvider env c name).2.2 := by
  have he := provider_miss env c name halive hmiss
  rw [resolveModule_fast env c name m hfast] at he
  simp only at he
  rw [he]
  refine ⟨rfl, rfl, ?_, ?_⟩ <;> simp

/-- Witness for the amended C7: the fast-path resolution of Foo emits
exactly begin-start, begin-end, the provider call and the cache write. -/
theorem fast_path_no_ending_event_witness :
    (allAlive envFastOnly = true ∧ cacheFind cache0 "Foo" = none ∧
      envFastOnly.delegateGetTurboModule "Foo" =
        some (TurboModule.delegateCxxModule 1)) ∧
    ((turboModuleProvider envFastOnly cache0 "Foo").1 =
      some (TurboModule.delegateCxxModule 1) ∧
     (turboModuleProvider envFastOnly cache0 "Foo").2.2 =
      [.moduleJSRequireBeginningStart "Foo", .moduleJSRequireBeginningEnd "Foo",
       .callDelegateGetTurboModule "Foo", .cacheWrite "Foo"] ∧
     TraceEvent.moduleJSRequireEndingStart "Foo" ∉
       (turboModuleProvider envFastOnly cache0 "Foo").2.2 ∧
     TraceEvent.moduleJSRequireEndingEnd "Foo" ∉
       (turboModuleProvider envFastOnly cache0 "Foo").2.2) :=
  ⟨⟨by decide, by decide, by decide⟩,
    fast_path_no_ending_event envFastOnly cache0 "Foo"
      (TurboModule.delegateCxxModule 1) (by decide) (by decide) (by decide)⟩

/-- Claim C10: in the managed-runtime branch, whenever the Java manager
returns a managed instance for the name, the value produced by
`delegate->getTurboModule(name, params)` is inserted into the cache and
returned with no non-empty check (lines 163-166); in particular when the
delegate produces a null module, a null entry is cached under the name and
null is returned to the caller. -/
theorem managed_tier_unconditional_insert (env : ResolverEnv) (c : TurboModuleCache)
    (name : String) (inst : Nat) (halive : allAlive env = true)
    (hmiss : cacheFind c name = none)
    (hfast : env.delegateGetTurboModule name = none)
    (hleg : env.getLegacyCxxModule name = none)
    (hjava : env.getJavaModule name = some inst) :
    (turboModuleProvider env c name).1 = env.delegateGetTurboModuleJava name inst ∧
    (turboModuleProvider env c name).2.1 =
      cacheInsert c name (env.delegateGetTurboModuleJava name inst) ∧
    (env.delegateGetTurboModuleJava name inst = none →
      (turboModuleProvider env c name).1 = none ∧
      cacheFind (turboModuleProvider env c name).2.1 name = some none) := by
  have he := provider_miss env c name halive hmiss
  rw [resolveModule_java env c name inst hfast hleg hjava] at he
  simp only at he
  rw [he]
  refine ⟨rfl, rfl, fun hnull => ⟨hnull, ?_⟩⟩
  rw [hnull]
  exact cacheFind_insert_self c name none hmiss

/-- Witness for C10: the Java manager holds object 4 for Foo but the
delegate produces a null module from it; the lookup caches a null entry
under Foo and returns null. -/
theorem managed_tier_unconditional_insert_witness :
    (allAlive envJavaNullModule = true ∧ cacheFind cache0 "Foo" = none ∧
      envJavaNullModule.delegateGetTurboModule "Foo" = none ∧
      envJavaNullModule.getLegacyCxxModule "Foo" = none ∧
      envJavaNullModule.getJavaModule "Foo" = some 4) ∧
    ((turboModuleProvider envJavaNullModule cache0 "Foo").1 =
      envJavaNullModule.delegateGetTurboModuleJava "Foo" 4 ∧
     (turboModuleProvider envJavaNullModule cache0 "Foo").2.1 =
       cacheInsert cache0 "Foo" (envJavaNullModule.delegateGetTurboModuleJava "Foo" 4) ∧
     (envJavaNullModule.delegateGetTurboModuleJava "Foo" 4 = none →
       (turboModuleProvider envJavaNullModule cache0 "Foo").1 = none ∧
       cacheFind (turboModuleProvider envJavaNullModule cache0 "Foo").2.1 "Foo" =
         some none)) :=
  ⟨⟨by decide, by decide, by decide, by decide, by decide⟩,
    managed_tier_unconditional_insert envJavaNullModule cache0 "Foo" 4 (by decide)
      (by decide) (by decide) (by decide) (by decide)⟩

/-- Claim C1: once a lookup for a name succeeds with instance `m`, the
cache maps the name to `m` and keeps doing so across any further sequence
of lookups, during which no further entry is ever written for that name;
any later lookup for the name either fails outright (a dead weak
reference) or returns the identical instance `m` with no provider
consulted.  Moreover, across any sequence of lookups at most one cache
entry is ever written for any given name. -/
theorem single_instantiation (env env2 : ResolverEnv) (c c0 : TurboModuleCache)
    (calls calls0 : List (ResolverEnv × String)) (name : String) (m : TurboModule)
    (hsucc : (turboModuleProvider env c name).1 = some m) :
    cacheFind (runSeq calls (turboModuleProvider env c name).2.1).1 name =
      some (some m) ∧
    insertCount name (runSeq calls (turboModuleProvider env c name).2.1).2 = 0 ∧
    ((turboModuleProvider env2
        (runSeq calls (turboModuleProvider env c name).2.1).1 name).1 = none ∨
      ((turboModuleProvider env2
          (runSeq calls (turboModuleProvider env c name).2.1).1 name).1 = some m ∧
       providerCalls (turboModuleProvider env2
          (runSeq calls (turboModuleProvider env c name).2.1).1 name).2.2 = [])) ∧
    insertCount name (runSeq calls0 c0).2 ≤ 1 := by
  have hcached := provider_success_cached env c name m hsucc
  have hkeep := runSeq_preserve calls _ name (some m) hcached
  refine ⟨hkeep, runSeq_insertCount_present calls _ name (some m) hcached, ?_,
    runSeq_insertCount_le_one calls0 c0 name⟩
  by_cases halive2 : allAlive env2 = true
  · right
    rw [provider_cache_hit env2 _ name (some m) halive2 hkeep]
    exact ⟨rfl, by simp [providerCalls, List.filter, TraceEvent.isProviderCall]⟩
  · left
    rw [Bool.not_eq_true] at halive2
    rw [provider_guard_dead env2 _ name halive2]

/-- Witness for C1: Foo is resolved once through the fast path (module 7);
after an interleaved failed lookup of Bar the cache still maps Foo to the
identical instance, a repeat lookup returns it with no provider call, and
no second entry is ever written. -/
theorem single_instantiation_witness :
    (turboModuleProvider envFastFoo cache0 "Foo").1 =
      some (TurboModule.delegateCxxModule 7) ∧
    (cacheFind (runSeq [(envFastFoo, "Bar")]
        (turboModuleProvider envFastFoo cache0 "Foo").2.1).1 "Foo" =
      some (some (TurboModule.delegateCxxModule 7)) ∧
     insertCount "Foo" (runSeq [(envFastFoo, "Bar")]
        (turboModuleProvider envFastFoo cache0 "Foo").2.1).2 = 0 ∧
     ((turboModuleProvider envFastFoo
         (runSeq [(envFastFoo, "Bar")]
           (turboModuleProvider envFastFoo cache0 "Foo").2.1).1 "Foo").1 = none ∨
       ((turboModuleProvider envFastFoo
           (runSeq [(envFastFoo, "Bar")]
             (turboModuleProvider envFastFoo cache0 "Foo").2.1).1 "Foo").1 =
          some (TurboModule.delegateCxxModule 7) ∧
        providerCalls (turboModuleProvider envFastFoo
           (runSeq [(envFastFoo, "Bar")]
             (turboModuleProvider envFastFoo cache0 "Foo").2.1).1 "Foo").2.2 = [])) ∧
     insertCount "Foo" (runSeq [(envFastFoo, "Foo"), (envFastFoo, "Foo")] cache0).2 ≤ 1) :=
  ⟨by decide,
    single_instantiation envFastFoo envFastFoo cache0 cache0 [(envFastFoo, "Bar")]
      [(envFastFoo, "Foo"), (envFastFoo, "Foo")] "Foo"
      (TurboModule.delegateCxxModule 7) (by decide)⟩

/-- Claim C5: the module cache is write-once per key: inserting under a
name already present is a no-op that keeps the existing entry, an entry is
never overwritten or removed by any further sequence of lookups, and
across any sequence of lookups at most one entry is ever written for a
given name. -/
theorem cache_write_once (c c0 : TurboModuleCache) (name : String)
    (v w : Option TurboModule) (calls calls0 : List (ResolverEnv × String))
    (hpresent : cacheFind c name = some v) :
    cacheInsert c name w = c ∧
    cacheFind (runSeq calls c).1 name = some v ∧
    insertCount name (runSeq calls0 c0).2 ≤ 1 :=
  ⟨cacheInsert_of_present c name v w hpresent,
    runSeq_preserve calls c name v hpresent,
    runSeq_insertCount_le_one calls0 c0 name⟩

/-- Witness for C5: with Foo already cached as module 3, a conflicting
insert is a no-op, a failed-lookup sequence leaves the entry intact, and a
double resolution of Foo from the empty cache writes at most one entry. -/
theorem cache_write_once_witness :
    cacheFind cacheWithFoo "Foo" = some (some (TurboModule.delegateCxxModule 3)) ∧
    (cacheInsert cacheWithFoo "Foo" (some (TurboModule.delegateCxxModule 8)) =
      cacheWithFoo ∧
     cacheFind (runSeq [(envAllAlive, "Foo")] cacheWithFoo).1 "Foo" =
       some (some (TurboModule.delegateCxxModule 3)) ∧
     insertCount "Foo" (runSeq [(envFastFoo, "Foo"), (envFastFoo, "Foo")] cache0).2 ≤ 1) :=
  ⟨by decide,
    cache_write_once cacheWithFoo cache0 "Foo" (some (TurboModule.delegateCxxModule 3))
      (some (TurboModule.delegateCxxModule 8)) [(envAllAlive, "Foo")]
      [(envFastFoo, "Foo"), (envFastFoo, "Foo")] (by decide)⟩

/-- Claim C8: the retention strategy is a pure function of the two
construction flags, fixed at construction: with neither flag set no
retained-callback factory is installed and no collection exists; with the
manager-scoped flag set (and the global flag clear) the manager owns a
freshly created long-lived-object collection and every callback retained
through the factory is registered in exactly that collection; with the
global flag set the factory retains callbacks process-globally and no
manager-owned collection is created. -/
theorem retention_policy_selection (freshCollection : Nat) (cb : Nat) :
    (mkTurboModuleManager false false freshCollection).retainJSCallback = none ∧
    (mkTurboModuleManager false false freshCollection).longLivedObjectCollection =
      none ∧
    (mkTurboModuleManager false true freshCollection).longLivedObjectCollection =
      some freshCollection ∧
    (mkTurboModuleManager false true freshCollection).retainJSCallback =
      some (fun callback => CallbackWrapperRef.weakInCollection freshCollection callback) ∧
    ((mkTurboModuleManager false true freshCollection).retainJSCallback.map
      (fun f => f cb)) =
      some (CallbackWrapperRef.weakInCollection freshCollection cb) ∧
    (mkTurboModuleManager true false freshCollection).longLivedObjectCollection =
      none ∧
    (mkTurboModuleManager true false freshCollection).retainJSCallback =
      some (fun callback => CallbackWrapperRef.weakGlobal callback) :=
  ⟨rfl, rfl, rfl, rfl, rfl, rfl, rfl⟩

/-- Claim C9: when both construction flags are true, the first branch wins:
the global strategy is installed, the manager-scoped collection is never
created, and the `longLivedObjectCollection_` member stays null — the
resulting state is identical to the one produced with only the global flag
set. -/
theorem retention_both_flags_global (freshCollection : Nat) :
    (mkTurboModuleManager true true freshCollection).longLivedObjectCollection =
      none ∧
    (mkTurboModuleManager true true freshCollection).retainJSCallback =
      some (fun callback => CallbackWrapperRef.weakGlobal callback) ∧
    mkTurboModuleManager true true freshCollection =
      mkTurboModuleManager true false freshCollection :=
  ⟨rfl, rfl, rfl⟩
